import Mathlib

/-!
Shallow embedding of `pylivetrader/algorithm.py` (the `Algorithm` class) and
the contracts of the helper modules it calls, with theorems settling the
behavioural claims about order sizing, scheduling, caching and backend
resolution.

Dates are normalized trading days, embedded as integers.  Money and share
amounts are embedded as rationals.  Python `None` becomes `Option.none`,
exceptions become an explicit error type, and calls into the broker backend
are recorded as an explicit trace so that "places an order with the backend"
is an observable fact of the model.
-/

/-- An asset record: identifier, ticker symbol, `end_date` and optional
`auto_close_date`, as in `pylivetrader.assets.Asset` (§3 of the spec). -/
structure Asset where
  sid : Nat
  symbol : String
  end_date : Int
  auto_close_date : Option Int
deriving DecidableEq, Repr

/-- The four execution-style variants of `pylivetrader.finance.execution`. -/
inductive ExecutionStyle where
  | MarketOrder : ExecutionStyle
  | LimitOrder (limit_price : ℚ) : ExecutionStyle
  | StopOrder (stop_price : ℚ) : ExecutionStyle
  | StopLimitOrder (limit_price stop_price : ℚ) : ExecutionStyle
deriving DecidableEq, Repr

/-- The failure kinds raised by the orchestrator (`pylivetrader.errors` plus
the Python built-in errors the code can hit). -/
inductive TraderError where
  | CannotOrderDelistedAsset (msg : String) : TraderError
  | UnsupportedOrderParameters (msg : String) : TraderError
  | ScheduleFunctionInvalidCalendar (given_calendar allowed_calendars : String) : TraderError
  | RuntimeError (msg : String) : TraderError
  | NameError (unbound_name : String) : TraderError
  | AssertionError : TraderError
deriving DecidableEq, Repr

/-- Log events emitted by the orchestrator (contents of the formatted log
strings are abstracted to their message kind and the asset symbol).  The
warn call in `_can_order_asset` never produces one: `log` is an unbound
name in algorithm.py, so that call raises NameError instead. -/
inductive LogEvent where
  | zeroPrice (symbol : String) : LogEvent
deriving DecidableEq, Repr

/-- Modelled from the spec: `round_if_near_integer(value, epsilon)` from
`pylivetrader.misc.math_utils` (not under `src/`): returns `value` rounded to
the nearest whole number if it lies within `epsilon` of that whole number,
else returns `value` unchanged (§4.1). -/
def round_if_near_integer (value : ℚ) (epsilon : ℚ) : ℚ :=
  if |value - round value| ≤ epsilon then round value else value

/-- Modelled from the spec: `tolerant_equals(a, b, atol, rtol)` from
`pylivetrader.misc.math_utils` (not under `src/`): whether
`|a - b| ≤ atol + rtol * |b|` (§4.1). -/
def tolerant_equals (a b atol rtol : ℚ) : Bool :=
  |a - b| ≤ atol + rtol * |b|

/-- Python `int(...)` applied to a rational: truncation toward zero. -/
def int_trunc (x : ℚ) : Int :=
  if 0 ≤ x then ⌊x⌋ else ⌈x⌉

namespace Algorithm

/-- `Algorithm.round_order` (algorithm.py lines 491-501): snap near-integers
then truncate to an integer share count with Python `int`.  The default
epsilon of `round_if_near_integer` is 0.0001. -/
def round_order (amount : ℚ) : Int :=
  int_trunc (round_if_near_integer amount (1 / 10000))

end Algorithm

/-- A position held in the portfolio: its signed share `amount`. -/
structure Position where
  amount : ℚ
deriving DecidableEq, Repr

/-- Portfolio snapshot: positions keyed by asset, and the portfolio value
(`pylivetrader.protocol`, not under `src/`; shape taken from §3 / §4.9 of
the spec and from how `algorithm.py` reads it). -/
structure Portfolio where
  positions : Asset → Option Position
  portfolio_value : ℚ

/-- Python truthiness of an optional numeric argument: `None` and `0` are
falsy, every other number is truthy. -/
def pyTruthy (o : Option ℚ) : Bool :=
  match o with
  | none => false
  | some x => x ≠ 0

/-- The environment an order-family call runs against: the current simulated
date (`normalize_date(self.get_datetime())`), the bar-data tradability view,
the data-portal price, the cached portfolio, logger presence, and the broker
backend response to an order placement.

`can_trade` is modelled from the spec: `BarData.can_trade` (not under
`src/`) is false once the asset is delisted (§4.6, §3).  `last_price` is
modelled from the spec: `_calculate_order_value_amount` references a
`last_price` local that the observed code never binds; §9 resolves the
contract as the last known price of the asset looked up through the data portal.
`backend_order` is the backend `order` method (§4.4): it returns the
id of the placed order, or `none` when the brokerage declines placement. -/
structure Env where
  datetime : Int
  can_trade : Asset → Bool
  last_price : Asset → ℚ
  portfolio : Portfolio
  logger : Bool
  backend_order : Asset → Int → ExecutionStyle → Option String

/-- A recorded call to the backend `order` method: asset, rounded signed
amount, and resolved execution style. -/
abbrev BackendCall := Asset × Int × ExecutionStyle

/-- Observable outcome of an order-family API call: the returned value or
raised error, the trace of backend order placements, and the log trace. -/
structure OrderOutcome where
  result : Except TraderError (Option String)
  backendCalls : List BackendCall
  logs : List LogEvent
deriving Repr

namespace Algorithm

/-- `Algorithm._can_order_asset` (algorithm.py lines 568-588) restricted to
actual `Asset` arguments: when the asset has an `auto_close_date` and the
current day is past `min(end_date, auto_close_date)`, the code means to warn
and return False, but `log` is an unbound name in algorithm.py (it is never
imported or assigned), so evaluating `log.warn(...)` at line 583 raises
NameError before the `return False` is reached; otherwise the check returns
True.  The `return False` at line 586 is therefore dead code: the check
either succeeds with True or raises. -/
def _can_order_asset (env : Env) (asset : Asset) : Except TraderError Bool :=
  match asset.auto_close_date with
  | none => .ok true
  | some acd =>
      if min asset.end_date acd < env.datetime then
        .error (.NameError "log")
      else
        .ok true

/-- `Algorithm.__convert_order_params_for_blotter` (algorithm.py lines
503-522): resolve deprecated positional prices plus an optional explicit
style into one `ExecutionStyle`.  `if style:` succeeds for any style object;
the price tests use Python truthiness (`if limit_price and stop_price:` ...),
and the explicit-style branch asserts both positional prices are `None`. -/
def convert_order_params_for_blotter (limit_price stop_price : Option ℚ)
    (style : Option ExecutionStyle) : Except TraderError ExecutionStyle :=
  match style with
  | some s =>
      if limit_price = none ∧ stop_price = none then .ok s
      else .error .AssertionError
  | none =>
      if pyTruthy limit_price ∧ pyTruthy stop_price then
        .ok (.StopLimitOrder (limit_price.getD 0) (stop_price.getD 0))
      else if pyTruthy limit_price then
        .ok (.LimitOrder (limit_price.getD 0))
      else if pyTruthy stop_price then
        .ok (.StopOrder (stop_price.getD 0))
      else
        .ok .MarketOrder

/-- `Algorithm._calculate_order` (algorithm.py lines 473-489): round the
amount with `round_order`, then resolve the execution style. -/
def _calculate_order (amount : ℚ) (limit_price stop_price : Option ℚ)
    (style : Option ExecutionStyle) : Except TraderError (Int × ExecutionStyle) :=
  match convert_order_params_for_blotter limit_price stop_price style with
  | .error e => .error e
  | .ok s => .ok (round_order amount, s)

/-- `Algorithm.order` (algorithm.py lines 148-157): quiet no-op (`None`)
when `_can_order_asset` returns False (unreachable as written, kept for
fidelity to `if not self._can_order_asset(asset): return None`); a raise
from the check propagates; otherwise round and resolve style, place
through the backend, and return the order id when the backend returned an
order (implicit `None` otherwise). -/
def order (env : Env) (asset : Asset) (amount : ℚ)
    (limit_price stop_price : Option ℚ) (style : Option ExecutionStyle) :
    OrderOutcome :=
  match _can_order_asset env asset with
  | .error e => ⟨.error e, [], []⟩
  | .ok false => ⟨.ok none, [], []⟩
  | .ok true =>
      match _calculate_order amount limit_price stop_price style with
      | .error e => ⟨.error e, [], []⟩
      | .ok (amt, sty) =>
          match env.backend_order asset amt sty with
          | some oid => ⟨.ok (some oid), [(asset, amt, sty)], []⟩
          | none => ⟨.ok none, [(asset, amt, sty)], []⟩

/-- `Algorithm._calculate_order_value_amount` (algorithm.py lines 532-551):
raise `CannotOrderDelistedAsset` when the bar-data view says the asset is
not tradable; return 0 shares (logging when a logger is set) when the last
price is tolerantly zero; otherwise divide the requested value by the last
price.  Returns the amount (or error) together with the emitted log
events. -/
def _calculate_order_value_amount (env : Env) (asset : Asset) (value : ℚ) :
    Except TraderError ℚ × List LogEvent :=
  if !(env.can_trade asset) then
    (.error (.CannotOrderDelistedAsset
        ("Cannot order " ++ asset.symbol ++ ", as it not tradable")), [])
  else
    let last_price := env.last_price asset
    if tolerant_equals last_price 0 (1 / 10000) 0 then
      (.ok 0, if env.logger then [.zeroPrice asset.symbol] else [])
    else
      (.ok (value / last_price), [])

/-- `Algorithm.order_value` (algorithm.py lines 297-306): quiet no-op when
`_can_order_asset` returns False (unreachable as written); a raise from the
check propagates; otherwise size the order by value and delegate to
`order`. -/
def order_value (env : Env) (asset : Asset) (value : ℚ)
    (limit_price stop_price : Option ℚ) (style : Option ExecutionStyle) :
    OrderOutcome :=
  match _can_order_asset env asset with
  | .error e => ⟨.error e, [], []⟩
  | .ok false => ⟨.ok none, [], []⟩
  | .ok true =>
      match _calculate_order_value_amount env asset value with
      | (.error e, lgs2) => ⟨.error e, [], lgs2⟩
      | (.ok amount, lgs2) =>
          let o := order env asset amount limit_price stop_price style
          ⟨o.result, o.backendCalls, lgs2 ++ o.logs⟩

/-- `Algorithm._calculate_order_target_amount` (algorithm.py lines 557-562):
subtract the amount of the currently held position from the target when a
position exists. -/
def _calculate_order_target_amount (port : Portfolio) (asset : Asset)
    (target : ℚ) : ℚ :=
  match port.positions asset with
  | some pos => target - pos.amount
  | none => target

/-- `Algorithm.order_target` (algorithm.py lines 373-382): quiet no-op when
`_can_order_asset` returns False (unreachable as written); a raise from the
check propagates; otherwise convert the target to a delta and delegate to
`order`. -/
def order_target (env : Env) (asset : Asset) (target : ℚ)
    (limit_price stop_price : Option ℚ) (style : Option ExecutionStyle) :
    OrderOutcome :=
  match _can_order_asset env asset with
  | .error e => ⟨.error e, [], []⟩
  | .ok false => ⟨.ok none, [], []⟩
  | .ok true =>
      order env asset (_calculate_order_target_amount env.portfolio asset target)
        limit_price stop_price style

end Algorithm

/-- Account snapshot, a black box to the orchestrator beyond existence (§3). -/
structure Account where
  buying_power : ℚ
deriving Repr

/-- The orchestrator state relevant to the lazy Portfolio/Account caches:
the two dirty flags set in `__init__` (algorithm.py lines 85-86), the cached
snapshots (`self._portfolio` / `self._account`, unset before first fetch),
the current datetime, and a count of backend fetches performed so far for
each cache (so that "exactly one backend fetch" is observable). -/
structure CacheState where
  _portfolio_needs_update : Bool
  _account_needs_update : Bool
  _portfolio : Option Portfolio
  _account : Option Account
  datetime : Int
  portfolio_fetches : Nat
  account_fetches : Nat

namespace Algorithm

/-- The `portfolio` property (algorithm.py lines 312-317): when the dirty
flag is set, fetch a fresh snapshot from the backend (`self._backend.portfolio`,
modelled as the backend snapshot stream indexed by fetch count), cache it
and clear the flag; otherwise return the cached snapshot.  Returns the read
value and the successor state. -/
def portfolio (backend_portfolio : Nat → Portfolio) (s : CacheState) :
    Option Portfolio × CacheState :=
  if s._portfolio_needs_update then
    let p := backend_portfolio s.portfolio_fetches
    (some p,
      { s with
        _portfolio := some p
        _portfolio_needs_update := false
        portfolio_fetches := s.portfolio_fetches + 1 })
  else
    (s._portfolio, s)

/-- The `account` property (algorithm.py lines 319-324): same caching
discipline as `portfolio`. -/
def account (backend_account : Nat → Account) (s : CacheState) :
    Option Account × CacheState :=
  if s._account_needs_update then
    let a := backend_account s.account_fetches
    (some a,
      { s with
        _account := some a
        _account_needs_update := false
        account_fetches := s.account_fetches + 1 })
  else
    (s._account, s)

/-- `Algorithm.on_dt_changed` (algorithm.py lines 329-332): the single
mutation point for "now"; sets both dirty flags and stores the new
datetime. -/
def on_dt_changed (s : CacheState) (dt : Int) : CacheState :=
  { s with
    _portfolio_needs_update := true
    _account_needs_update := true
    datetime := dt }

end Algorithm

/-- The calendar sentinels of `pylivetrader.misc.events.calendars` plus an
arbitrary unrecognized value (`calendar is calendars.US_EQUITIES` is an
identity test, so anything else falls to the error branch). -/
inductive CalendarSentinel where
  | US_EQUITIES : CalendarSentinel
  | US_FUTURES : CalendarSentinel
  | other (name : String) : CalendarSentinel
deriving DecidableEq, Repr

/-- A trading calendar handle: the calendar configured on the algorithm or one
obtained from `get_calendar` by name. -/
inductive TradingCal where
  | get_calendar (name : String) : TradingCal
  | configured : TradingCal
deriving DecidableEq, Repr

/-- Date rules of `pylivetrader.misc.events.date_rules` (only `every_day`
is used by `algorithm.py`). -/
inductive DateRule where
  | every_day : DateRule
  | other_date_rule (tag : String) : DateRule
deriving DecidableEq, Repr

/-- Time rules of `pylivetrader.misc.events.time_rules` (§4.7): every
minute, N minutes after open, N minutes before close. -/
inductive TimeRule where
  | every_minute : TimeRule
  | AfterOpen (minutes : Nat) : TimeRule
  | BeforeClose (minutes : Nat) : TimeRule
deriving DecidableEq, Repr

/-- The two recognized data frequencies (algorithm.py line 46). -/
inductive DataFrequency where
  | minute : DataFrequency
  | daily : DataFrequency
deriving DecidableEq, Repr

/-- The composite event rule `make_eventrule(date_rule, time_rule, cal,
half_days)` is registered with: the record of what `schedule_function`
passed to `add_event` (§4.7). -/
structure EventRule where
  date_rule : DateRule
  time_rule : TimeRule
  cal : TradingCal
  half_days : Bool
deriving DecidableEq, Repr

/-- One bar of the running clock within a trading session, identified by
its distance from session open and close. -/
structure Bar where
  minutes_after_open : Nat
  minutes_before_close : Nat
deriving DecidableEq, Repr

/-- Modelled from the spec: whether a time rule fires on a given bar
(`pylivetrader.misc.events`, not under `src/`): `every_minute` fires on
every bar; `AfterOpen n` / `BeforeClose n` fire on the bar N minutes from
open / close (§4.7). -/
def TimeRule.matches : TimeRule → Bar → Bool
  | .every_minute, _ => true
  | .AfterOpen n, b => b.minutes_after_open = n
  | .BeforeClose n, b => b.minutes_before_close = n

/-- Number of firings of a time rule over the bars of one session. -/
def countFirings (tr : TimeRule) (session : List Bar) : Nat :=
  (session.filter tr.matches).length

namespace Algorithm

/-- `Algorithm.schedule_function` (algorithm.py lines 165-228), rule and
calendar resolution: default the date rule to `every_day`; in minute mode
default the time rule to `every_minute`, in daily mode force `every_minute`
ignoring any supplied time rule; resolve the calendar argument.  For any
calendar other than `None` and the two recognized sentinels the code means
to raise `ScheduleFunctionInvalidCalendar(given_calendar=...,
allowed_calendars=...)` (line 218), but that class is never imported in
algorithm.py (the errors import at lines 14-16 brings in only three other
classes), so evaluating the name raises NameError before the intended
error can be constructed.  Returns the event rule passed to
`add_event`. -/
def schedule_function (data_frequency : DataFrequency)
    (date_rule : Option DateRule) (time_rule : Option TimeRule)
    (half_days : Bool) (calendar : Option CalendarSentinel) :
    Except TraderError EventRule :=
  let dr := date_rule.getD .every_day
  let tr :=
    match data_frequency with
    | .minute => time_rule.getD .every_minute
    | .daily => .every_minute
  match calendar with
  | none => .ok ⟨dr, tr, .configured, half_days⟩
  | some .US_EQUITIES => .ok ⟨dr, tr, .get_calendar "NYSE", half_days⟩
  | some .US_FUTURES => .ok ⟨dr, tr, .get_calendar "us_futures", half_days⟩
  | some (.other _) =>
      .error (.NameError "ScheduleFunctionInvalidCalendar")

end Algorithm

/-- The import environment for backend resolution: which names are
importable as `pylivetrader.backend.<name>` (first-party) and which are
importable as a top-level module (global namespace). -/
structure ImportEnv where
  firstparty : String → Bool
  globalns : String → Bool

namespace Algorithm

/-- Backend resolution in `Algorithm.__init__` (algorithm.py lines 48-59):
try importing the first-party module `pylivetrader.backend.<name>`; on
ImportError, evaluate `importlib.import_module(backend).Backend(**options)` —
but `options` is an unbound name there, so when the global import succeeds
Python raises `NameError` (which the `except ImportError` does not catch);
when the global import also fails, raise `RuntimeError` naming the
backend. -/
def resolve_backend (env : ImportEnv) (backend : String) :
    Except TraderError String :=
  if env.firstparty backend then
    .ok ("pylivetrader.backend." ++ backend)
  else if env.globalns backend then
    .error (.NameError "options")
  else
    .error (.RuntimeError ("Could not find backend package `" ++ backend ++ "`."))

end Algorithm

/-! Concrete fixtures used to evaluate the model at specific inputs. -/

/-- An ordinary asset with no auto-close date. -/
def aapl : Asset := ⟨1, "AAPL", 20000, none⟩

/-- A delisted asset whose `auto_close_date` (day 17010) precedes the
sample current date (day 18000). -/
def goneAsset : Asset := ⟨2, "GONE", 17000, some 17010⟩

/-- An asset with no position in the sample portfolio. -/
def xyzAsset : Asset := ⟨3, "XYZ", 20000, none⟩

/-- An asset whose `end_date` (day 100) is long past but which has no
`auto_close_date`. -/
def staleAsset : Asset := ⟨4, "OLD", 100, none⟩

/-- A backend that accepts every order and returns a fixed order id. -/
def acceptAllBackend : Asset → Int → ExecutionStyle → Option String :=
  fun _ _ _ => some "oid-1"

/-- A portfolio holding 100 shares of the asset with sid 1. -/
def samplePortfolio : Portfolio :=
  ⟨fun a => if a.sid = 1 then some ⟨100⟩ else none, 100000⟩

/-- Environment at day 18000 where every asset is tradable and has last
price 100. -/
def sampleEnv : Env :=
  ⟨18000, fun _ => true, fun _ => 100, samplePortfolio, true, acceptAllBackend⟩

/-- Environment at day 18000 where the bar-data view reports every asset as
not tradable. -/
def noTradeEnv : Env :=
  ⟨18000, fun _ => false, fun _ => 100, samplePortfolio, true, acceptAllBackend⟩

/-- Environment where every asset is tradable but its last known price is
0.00000001, tolerantly equal to zero. -/
def zeroPriceEnv : Env :=
  ⟨18000, fun _ => true, fun _ => 1 / 100000000, samplePortfolio, true,
    acceptAllBackend⟩

/-- A cache state fresh out of `__init__`: both dirty flags set, nothing
cached, no fetches performed. -/
def initCacheState : CacheState := ⟨true, true, none, none, 18000, 0, 0⟩

/-- Import environment where only `alpaca` is a first-party backend and
only `mybackend` is importable from the global namespace. -/
def sampleImports : ImportEnv :=
  ⟨fun n => n == "alpaca", fun n => n == "mybackend"⟩

/-! Helper lemmas shared across the claim theorems. -/

/-- An integer within 1/10000 of a rational is the rounding of that
rational. -/
lemma round_eq_of_near (x : ℚ) (n : Int) (h : |x - (n : ℚ)| ≤ 1 / 10000) :
    round x = n := by
  have h1 := abs_le.mp h
  rw [round_eq]
  apply Int.floor_eq_iff.mpr
  constructor
  · linarith [h1.1]
  · linarith [h1.2]

/-- Evaluate `round` on a rational from bracketing bounds. -/
lemma round_eval (x : ℚ) (n : Int) (h1 : (n : ℚ) ≤ x + 1 / 2)
    (h2 : x + 1 / 2 < (n : ℚ) + 1) : round x = n := by
  rw [round_eq]
  apply Int.floor_eq_iff.mpr
  exact ⟨h1, by linarith⟩

/-- Truncation toward zero is the identity on integer casts. -/
lemma int_trunc_intCast (n : Int) : int_trunc (n : ℚ) = n := by
  unfold int_trunc
  split
  · exact Int.floor_intCast n
  · exact Int.ceil_intCast n

/-- Evaluate `int_trunc` on a nonnegative rational. -/
lemma int_trunc_eval_nonneg (x : ℚ) (n : Int) (h0 : 0 ≤ x)
    (h1 : (n : ℚ) ≤ x) (h2 : x < (n : ℚ) + 1) : int_trunc x = n := by
  unfold int_trunc
  rw [if_pos h0]
  apply Int.floor_eq_iff.mpr
  exact ⟨h1, by linarith⟩

/-- Evaluate `int_trunc` on a negative rational. -/
lemma int_trunc_eval_neg (x : ℚ) (n : Int) (h0 : ¬0 ≤ x)
    (h1 : (n : ℚ) - 1 < x) (h2 : x ≤ (n : ℚ)) : int_trunc x = n := by
  unfold int_trunc
  rw [if_neg h0]
  apply Int.ceil_eq_iff.mpr
  exact ⟨by linarith, h2⟩

/-- `round_order` on an amount within 1/10000 of the whole number `n`
returns exactly `n`. -/
lemma round_order_eq_of_near (x : ℚ) (n : Int)
    (h : |x - (n : ℚ)| ≤ 1 / 10000) : Algorithm.round_order x = n := by
  have hr : round x = n := round_eq_of_near x n h
  unfold Algorithm.round_order round_if_near_integer
  rw [hr, if_pos h]
  exact int_trunc_intCast n

/-- `round_order` on an amount not within 1/10000 of its nearest whole
number truncates toward zero. -/
lemma round_order_eq_of_far (x : ℚ)
    (h : ¬|x - (round x : ℚ)| ≤ 1 / 10000) :
    Algorithm.round_order x = int_trunc x := by
  unfold Algorithm.round_order round_if_near_integer
  rw [if_neg h]

/-- For an asset that passes the orderability check, a bare `order` call
(no positional prices, no style) forwards exactly one market order for the
rounded amount to the backend. -/
lemma order_market_backendCalls (env : Env) (asset : Asset) (amount : ℚ)
    (h : Algorithm._can_order_asset env asset = Except.ok true) :
    (Algorithm.order env asset amount none none none).backendCalls =
      [(asset, Algorithm.round_order amount, ExecutionStyle.MarketOrder)] := by
  unfold Algorithm.order Algorithm._calculate_order
    Algorithm.convert_order_params_for_blotter
  rw [h]
  simp only [pyTruthy]
  cases hbo : env.backend_order asset (Algorithm.round_order amount)
      ExecutionStyle.MarketOrder <;> simp [hbo]

/-- C2: `round_order` snaps amounts within 0.0001 of a whole number to that
whole number and otherwise truncates toward zero; 3.9999 ↦ 4, 5.5 ↦ 5,
−5.5 ↦ −5; and `order` applies this rounding to its amount before
placement. -/
theorem C2_round_order_spec :
    (∀ (x : ℚ) (n : Int), |x - (n : ℚ)| ≤ 1 / 10000 →
      Algorithm.round_order x = n) ∧
    (∀ x : ℚ, ¬|x - (round x : ℚ)| ≤ 1 / 10000 →
      Algorithm.round_order x = int_trunc x) ∧
    Algorithm.round_order (39999 / 10000) = 4 ∧
    Algorithm.round_order (11 / 2) = 5 ∧
    Algorithm.round_order (-(11 / 2)) = -5 ∧
    (∀ (env : Env) (asset : Asset) (amount : ℚ),
      Algorithm._can_order_asset env asset = Except.ok true →
      (Algorithm.order env asset amount none none none).backendCalls =
        [(asset, Algorithm.round_order amount, ExecutionStyle.MarketOrder)]) := by
  refine ⟨round_order_eq_of_near, round_order_eq_of_far, ?_, ?_, ?_, ?_⟩
  · apply round_order_eq_of_near
    rw [abs_le]
    constructor <;> norm_num
  · have hr : round ((11 : ℚ) / 2) = 6 := round_eval _ 6 (by norm_num) (by norm_num)
    rw [round_order_eq_of_far _ (by rw [hr, abs_le]; push_neg; intro hcontra; norm_num at hcontra)]
    exact int_trunc_eval_nonneg _ 5 (by norm_num) (by norm_num) (by norm_num)
  · have hr : round (-((11 : ℚ) / 2)) = -5 := round_eval _ (-5) (by norm_num) (by norm_num)
    rw [round_order_eq_of_far _ (by rw [hr, abs_le]; push_neg; intro hcontra; norm_num at hcontra)]
    exact int_trunc_eval_neg _ (-5) (by norm_num) (by norm_num) (by norm_num)
  · exact order_market_backendCalls

/-- C2 witness: the theorem applied at 3.9999 (snap case), 5.5 (truncation
case) and a concrete order placement. -/
theorem C2_round_order_spec_witness :
    Algorithm.round_order (39999 / 10000) = 4 ∧
    Algorithm.round_order (11 / 2) = int_trunc (11 / 2) ∧
    (Algorithm.order sampleEnv aapl (39999 / 10000) none none none).backendCalls =
      [(aapl, Algorithm.round_order (39999 / 10000), ExecutionStyle.MarketOrder)] :=
  ⟨C2_round_order_spec.1 (39999 / 10000) 4 (by rw [abs_le]; constructor <;> norm_num),
   C2_round_order_spec.2.1 (11 / 2)
     (by
       have hr : round ((11 : ℚ) / 2) = 6 := round_eval _ 6 (by norm_num) (by norm_num)
       rw [hr, abs_le]
       push_neg
       intro hcontra
       norm_num at hcontra),
   C2_round_order_spec.2.2.2.2.2 sampleEnv aapl (39999 / 10000) (by rfl)⟩


/-- When the auto-close date of the asset precedes the current day, the
orderability check raises NameError at the `log.warn` call (`log` being an
unbound name) instead of returning False. -/
lemma can_order_name_error {env : Env} {asset : Asset} {acd : Int}
    (hacd : asset.auto_close_date = some acd) (hlt : acd < env.datetime) :
    Algorithm._can_order_asset env asset =
      Except.error (TraderError.NameError "log") := by
  unfold Algorithm._can_order_asset
  simp only [hacd]
  rw [if_pos (lt_of_le_of_lt (min_le_right asset.end_date acd) hlt)]

/-- Sizing by value with a tolerantly-zero last price returns 0 shares
(logging when a logger is set). -/
lemma calc_value_amount_zero (env : Env) (asset : Asset) (value : ℚ)
    (h2 : env.can_trade asset = true)
    (h3 : tolerant_equals (env.last_price asset) 0 (1 / 10000) 0 = true) :
    Algorithm._calculate_order_value_amount env asset value =
      (Except.ok 0, if env.logger then [LogEvent.zeroPrice asset.symbol] else []) := by
  unfold Algorithm._calculate_order_value_amount
  rw [h2]
  simp only [Bool.not_true, Bool.false_eq_true, if_false, h3, if_true]

/-- `order_value` with a tolerantly-zero last price on an orderable,
tradable asset: the sizing step yields 0 shares and a zero-share market
order is forwarded to the backend. -/
lemma order_value_zero_price (env : Env) (asset : Asset) (value : ℚ)
    (h1 : Algorithm._can_order_asset env asset = Except.ok true)
    (h2 : env.can_trade asset = true)
    (h3 : tolerant_equals (env.last_price asset) 0 (1 / 10000) 0 = true) :
    (Algorithm._calculate_order_value_amount env asset value).1 = Except.ok 0 ∧
    (Algorithm.order_value env asset value none none none).backendCalls =
      [(asset, 0, ExecutionStyle.MarketOrder)] := by
  have hcalc := calc_value_amount_zero env asset value h2 h3
  have hr0 : Algorithm.round_order 0 = 0 := round_order_eq_of_near 0 0 (by norm_num)
  have hbc := order_market_backendCalls env asset 0 h1
  constructor
  · rw [hcalc]
  · unfold Algorithm.order_value
    rw [h1, hcalc]
    simp only
    rw [hbc, hr0]

/-- C1 counterexample: `goneAsset` is not currently tradable in
`noTradeEnv` (its `can_trade` is false, and its auto-close date 17010
precedes day 18000), yet `order_value` does not raise
`CannotOrderDelistedAsset`: the auto-close orderability gate runs first and
its `log.warn` call hits the unbound name `log`, so both `order_value` and
plain `order` raise NameError — refuting both the claimed
`CannotOrderDelistedAsset` raise and the claimed quiet no-op (no `None` is
returned, something is raised). -/
theorem C1_order_value_counterexample :
    noTradeEnv.can_trade goneAsset = false ∧
    (Algorithm.order_value noTradeEnv goneAsset 1000 none none none).result =
      Except.error (TraderError.NameError "log") ∧
    Algorithm.order noTradeEnv goneAsset 10 none none none =
      ⟨Except.error (TraderError.NameError "log"), [], []⟩ :=
  ⟨rfl, rfl, rfl⟩

/-- C1 (amended): `order_value` raises `CannotOrderDelistedAsset` for an
asset that passes the auto-close orderability gate but whose bar-data
tradability check is false.  An asset whose auto-close date precedes the
current simulated date is not a quiet no-op for plain `order` (nor for
`order_value`): the warn-and-return-False branch of `_can_order_asset`
evaluates the unbound name `log` (algorithm.py line 583), so both calls
raise NameError — nothing is logged, `None` is not returned, and no order
is placed. -/
theorem C1_delisting_behaviour :
    (∀ (env : Env) (asset : Asset) (value : ℚ) (lp sp : Option ℚ)
        (st : Option ExecutionStyle),
      Algorithm._can_order_asset env asset = Except.ok true →
      env.can_trade asset = false →
      (Algorithm.order_value env asset value lp sp st).result =
        Except.error (TraderError.CannotOrderDelistedAsset
          ("Cannot order " ++ asset.symbol ++ ", as it not tradable"))) ∧
    (∀ (env : Env) (asset : Asset) (amount : ℚ) (lp sp : Option ℚ)
        (st : Option ExecutionStyle) (acd : Int),
      asset.auto_close_date = some acd →
      acd < env.datetime →
      Algorithm.order env asset amount lp sp st =
        ⟨Except.error (TraderError.NameError "log"), [], []⟩ ∧
      Algorithm.order_value env asset amount lp sp st =
        ⟨Except.error (TraderError.NameError "log"), [], []⟩) := by
  constructor
  · intro env asset value lp sp st h1 h2
    unfold Algorithm.order_value Algorithm._calculate_order_value_amount
    rw [h1, h2]
    simp
  · intro env asset amount lp sp st acd hacd hlt
    have hco := can_order_name_error hacd hlt
    constructor
    · unfold Algorithm.order
      rw [hco]
    · unfold Algorithm.order_value
      rw [hco]

/-- C1 witness: the amended theorem applied to `aapl` (orderable but not
tradable in `noTradeEnv`) and to `goneAsset` (auto-closed on day 17010,
before day 18000). -/
theorem C1_delisting_behaviour_witness :
    (Algorithm.order_value noTradeEnv aapl 1000 none none none).result =
      Except.error (TraderError.CannotOrderDelistedAsset
        ("Cannot order " ++ aapl.symbol ++ ", as it not tradable")) ∧
    Algorithm.order noTradeEnv goneAsset 10 none none none =
      ⟨Except.error (TraderError.NameError "log"), [], []⟩ :=
  ⟨C1_delisting_behaviour.1 noTradeEnv aapl 1000 none none none rfl rfl,
   (C1_delisting_behaviour.2 noTradeEnv goneAsset 10 none none none 17010 rfl
      (by decide)).1⟩

/-- C3 counterexample: in `zeroPriceEnv` the asset `aapl` is tradable and
its last price 0.00000001 is tolerantly zero, yet `order_value` does place
an order with the backend: a zero-share market order is forwarded, so the
backend-call trace is not empty as the claim asserts. -/
theorem C3_zero_price_counterexample :
    zeroPriceEnv.can_trade aapl = true ∧
    tolerant_equals (zeroPriceEnv.last_price aapl) 0 (1 / 10000) 0 = true ∧
    (Algorithm.order_value zeroPriceEnv aapl 1000 none none none).backendCalls =
      [(aapl, 0, ExecutionStyle.MarketOrder)] ∧
    (Algorithm.order_value zeroPriceEnv aapl 1000 none none none).backendCalls ≠
      [] := by
  have htol : tolerant_equals (zeroPriceEnv.last_price aapl) 0 (1 / 10000) 0 = true := by
    show tolerant_equals (1 / 100000000) 0 (1 / 10000) 0 = true
    simp only [tolerant_equals, decide_eq_true_eq]
    rw [sub_zero, abs_of_nonneg (by norm_num)]
    norm_num
  have h := order_value_zero_price zeroPriceEnv aapl 1000 rfl rfl htol
  refine ⟨rfl, htol, h.2, ?_⟩
  rw [h.2]
  simp

/-- C3 (amended): for a tradable, orderable asset whose last known price is
tolerantly zero (absolute tolerance 0.0001), `order_value` computes 0
shares in the sizing step, and the zero-share order is still forwarded to
the backend order call (as a market order when no prices or style are
given) rather than suppressed. -/
theorem C3_zero_price_order (env : Env) (asset : Asset) (value : ℚ)
    (hv : value ≠ 0)
    (h1 : Algorithm._can_order_asset env asset = Except.ok true)
    (h2 : env.can_trade asset = true)
    (h3 : tolerant_equals (env.last_price asset) 0 (1 / 10000) 0 = true) :
    (Algorithm._calculate_order_value_amount env asset value).1 = Except.ok 0 ∧
    (Algorithm.order_value env asset value none none none).backendCalls =
      [(asset, 0, ExecutionStyle.MarketOrder)] :=
  order_value_zero_price env asset value h1 h2 h3

/-- C3 witness: the amended theorem applied to `aapl` with value 1000 in
`zeroPriceEnv`. -/
theorem C3_zero_price_order_witness :
    (Algorithm._calculate_order_value_amount zeroPriceEnv aapl 1000).1 =
      Except.ok 0 ∧
    (Algorithm.order_value zeroPriceEnv aapl 1000 none none none).backendCalls =
      [(aapl, 0, ExecutionStyle.MarketOrder)] :=
  C3_zero_price_order zeroPriceEnv aapl 1000 (by norm_num) rfl rfl
    (by
      show tolerant_equals (1 / 100000000) 0 (1 / 10000) 0 = true
      simp only [tolerant_equals, decide_eq_true_eq]
      rw [sub_zero, abs_of_nonneg (by norm_num)]
      norm_num)

/-- C4: `order_target` computes the amount to order as the target minus the
currently held position (0 when no position exists): with 100 held shares a
target of 150 orders +50, with no position it orders +150, and for an
orderable asset `order_target` delegates to `order` with exactly that
delta. -/
theorem C4_order_target_delta :
    (∀ (port : Portfolio) (asset : Asset) (target : ℚ),
      Algorithm._calculate_order_target_amount port asset target =
        target - (match port.positions asset with
                  | some pos => pos.amount
                  | none => 0)) ∧
    Algorithm._calculate_order_target_amount samplePortfolio aapl 150 = 50 ∧
    Algorithm._calculate_order_target_amount samplePortfolio xyzAsset 150 = 150 ∧
    (∀ (env : Env) (asset : Asset) (target : ℚ) (lp sp : Option ℚ)
        (st : Option ExecutionStyle),
      Algorithm._can_order_asset env asset = Except.ok true →
      Algorithm.order_target env asset target lp sp st =
        Algorithm.order env asset
          (Algorithm._calculate_order_target_amount env.portfolio asset target)
          lp sp st) := by
  refine ⟨?_, ?_, ?_, ?_⟩
  · intro port asset target
    unfold Algorithm._calculate_order_target_amount
    cases port.positions asset <;> simp
  · show (150 : ℚ) - 100 = 50
    norm_num
  · show (150 : ℚ) = 150
    rfl
  · intro env asset target lp sp st h
    unfold Algorithm.order_target
    rw [h]

/-- C4 witness: the delegation clause of the theorem applied to `aapl` (held
position 100) with target 150 in `sampleEnv`. -/
theorem C4_order_target_delta_witness :
    Algorithm.order_target sampleEnv aapl 150 none none none =
      Algorithm.order sampleEnv aapl
        (Algorithm._calculate_order_target_amount sampleEnv.portfolio aapl 150)
        none none none :=
  C4_order_target_delta.2.2.2 sampleEnv aapl 150 none none none rfl

/-- C5 counterexample: a limit price of 0 is "set" (passed) but Python
truthiness treats it as unset: with `limit_price = 0` and no stop price the
helper produces a Market style, not the Limit style that the precedence stated in the claim
requires. -/
theorem C5_style_counterexample :
    Algorithm.convert_order_params_for_blotter (some 0) none none =
      Except.ok ExecutionStyle.MarketOrder ∧
    Algorithm.convert_order_params_for_blotter (some 0) none none ≠
      Except.ok (ExecutionStyle.LimitOrder 0) := by
  constructor
  · simp [Algorithm.convert_order_params_for_blotter, pyTruthy]
  · simp [Algorithm.convert_order_params_for_blotter, pyTruthy]

/-- C5 (amended): a positional price counts as set only when it is provided
and nonzero (Python truthiness).  With that reading the helper chooses
exactly one style: an explicit style is returned as-is when both positional
prices are absent (and the assertion fails otherwise); else both prices
truthy yields StopLimit, only limit truthy yields Limit, only stop truthy
yields Stop, and neither yields Market. -/
theorem C5_style_resolution :
    (∀ st : ExecutionStyle,
      Algorithm.convert_order_params_for_blotter none none (some st) =
        Except.ok st) ∧
    (∀ (lp sp : Option ℚ) (st : ExecutionStyle), ¬(lp = none ∧ sp = none) →
      Algorithm.convert_order_params_for_blotter lp sp (some st) =
        Except.error TraderError.AssertionError) ∧
    (∀ lp sp : Option ℚ, pyTruthy lp = true → pyTruthy sp = true →
      Algorithm.convert_order_params_for_blotter lp sp none =
        Except.ok (ExecutionStyle.StopLimitOrder (lp.getD 0) (sp.getD 0))) ∧
    (∀ lp sp : Option ℚ, pyTruthy lp = true → pyTruthy sp = false →
      Algorithm.convert_order_params_for_blotter lp sp none =
        Except.ok (ExecutionStyle.LimitOrder (lp.getD 0))) ∧
    (∀ lp sp : Option ℚ, pyTruthy lp = false → pyTruthy sp = true →
      Algorithm.convert_order_params_for_blotter lp sp none =
        Except.ok (ExecutionStyle.StopOrder (sp.getD 0))) ∧
    (∀ lp sp : Option ℚ, pyTruthy lp = false → pyTruthy sp = false →
      Algorithm.convert_order_params_for_blotter lp sp none =
        Except.ok ExecutionStyle.MarketOrder) := by
  refine ⟨?_, ?_, ?_, ?_, ?_, ?_⟩
  · intro st
    rfl
  · intro lp sp st h
    show (if lp = none ∧ sp = none then Except.ok st
          else Except.error TraderError.AssertionError) =
      Except.error TraderError.AssertionError
    rw [if_neg h]
  · intro lp sp h1 h2
    unfold Algorithm.convert_order_params_for_blotter
    simp [h1, h2]
  · intro lp sp h1 h2
    unfold Algorithm.convert_order_params_for_blotter
    simp [h1, h2]
  · intro lp sp h1 h2
    unfold Algorithm.convert_order_params_for_blotter
    simp [h1, h2]
  · intro lp sp h1 h2
    unfold Algorithm.convert_order_params_for_blotter
    simp [h1, h2]

/-- C5 witness: the amended theorem applied to an explicit style, to prices
(5, 6), (5, none), (none, 7) and (none, none), and to the assertion case
with an explicit style plus a set limit price. -/
theorem C5_style_resolution_witness :
    Algorithm.convert_order_params_for_blotter none none
      (some ExecutionStyle.MarketOrder) = Except.ok ExecutionStyle.MarketOrder ∧
    Algorithm.convert_order_params_for_blotter (some 1) none
      (some ExecutionStyle.MarketOrder) = Except.error TraderError.AssertionError ∧
    Algorithm.convert_order_params_for_blotter (some 5) (some 6) none =
      Except.ok (ExecutionStyle.StopLimitOrder 5 6) ∧
    Algorithm.convert_order_params_for_blotter (some 5) none none =
      Except.ok (ExecutionStyle.LimitOrder 5) ∧
    Algorithm.convert_order_params_for_blotter none (some 7) none =
      Except.ok (ExecutionStyle.StopOrder 7) ∧
    Algorithm.convert_order_params_for_blotter none none none =
      Except.ok ExecutionStyle.MarketOrder :=
  ⟨C5_style_resolution.1 ExecutionStyle.MarketOrder,
   C5_style_resolution.2.1 (some 1) none ExecutionStyle.MarketOrder (by simp),
   C5_style_resolution.2.2.1 (some 5) (some 6) (by norm_num [pyTruthy])
     (by norm_num [pyTruthy]),
   C5_style_resolution.2.2.2.1 (some 5) none (by norm_num [pyTruthy]) rfl,
   C5_style_resolution.2.2.2.2.1 none (some 7) rfl (by norm_num [pyTruthy]),
   C5_style_resolution.2.2.2.2.2 none none rfl rfl⟩

/-- C6: two consecutive `portfolio` (or `account`) reads with no clock
advance return the same cached snapshot and cause at most one backend
fetch; `on_dt_changed` sets both dirty flags, so the next read after a
clock advance performs exactly one fresh backend fetch. -/
theorem C6_cache_invalidation :
    ∀ (bp : Nat → Portfolio) (ba : Nat → Account) (s : CacheState) (dt : Int),
      (Algorithm.portfolio bp (Algorithm.portfolio bp s).2).1 =
        (Algorithm.portfolio bp s).1 ∧
      (Algorithm.portfolio bp (Algorithm.portfolio bp s).2).2.portfolio_fetches ≤
        s.portfolio_fetches + 1 ∧
      (Algorithm.account ba (Algorithm.account ba s).2).1 =
        (Algorithm.account ba s).1 ∧
      (Algorithm.account ba (Algorithm.account ba s).2).2.account_fetches ≤
        s.account_fetches + 1 ∧
      (Algorithm.on_dt_changed s dt)._portfolio_needs_update = true ∧
      (Algorithm.on_dt_changed s dt)._account_needs_update = true ∧
      (Algorithm.portfolio bp (Algorithm.on_dt_changed s dt)).2.portfolio_fetches =
        s.portfolio_fetches + 1 ∧
      (Algorithm.account ba (Algorithm.on_dt_changed s dt)).2.account_fetches =
        s.account_fetches + 1 := by
  intro bp ba s dt
  unfold Algorithm.portfolio Algorithm.account Algorithm.on_dt_changed
  rcases s with ⟨pnu, anu, pc, ac, d, pf, af⟩
  cases pnu <;> cases anu <;> simp

/-- C7: evaluation of calendar resolution in `schedule_function` at an
unrecognized calendar.  The raise at algorithm.py line 218 names
`ScheduleFunctionInvalidCalendar`, but that class is never imported in
algorithm.py, so the call fails with a NameError that names neither
sentinel — never with the intended invalid-calendar error whose detail
would list the two accepted sentinels; the two recognized sentinels and
the absent default do not fail. -/
theorem C7_invalid_calendar_name_error :
    (∀ (freq : DataFrequency) (dr : Option DateRule) (tr : Option TimeRule)
        (hd : Bool) (given : String),
      Algorithm.schedule_function freq dr tr hd
          (some (CalendarSentinel.other given)) =
        Except.error (TraderError.NameError "ScheduleFunctionInvalidCalendar")) ∧
    (∀ (freq : DataFrequency) (dr : Option DateRule) (tr : Option TimeRule)
        (hd : Bool) (given gc ac : String),
      Algorithm.schedule_function freq dr tr hd
          (some (CalendarSentinel.other given)) ≠
        Except.error (TraderError.ScheduleFunctionInvalidCalendar gc ac)) ∧
    (∀ (freq : DataFrequency) (dr : Option DateRule) (tr : Option TimeRule)
        (hd : Bool),
      (Algorithm.schedule_function freq dr tr hd none).isOk = true ∧
      (Algorithm.schedule_function freq dr tr hd
        (some CalendarSentinel.US_EQUITIES)).isOk = true ∧
      (Algorithm.schedule_function freq dr tr hd
        (some CalendarSentinel.US_FUTURES)).isOk = true) := by
  refine ⟨?_, ?_, ?_⟩
  · intro freq dr tr hd given
    cases freq <;> rfl
  · intro freq dr tr hd given gc ac
    cases freq <;> simp [Algorithm.schedule_function]
  · intro freq dr tr hd
    cases freq <;> exact ⟨rfl, rfl, rfl⟩

/-- C8: in daily data frequency `schedule_function` forces the time rule to
every-minute, ignoring any explicitly supplied time rule, and an
every-minute rule fires exactly once over the single bar of a daily
session; in minute mode an absent time rule defaults to every minute. -/
theorem C8_daily_time_rule_override :
    (∀ (dr : Option DateRule) (tro : Option TimeRule) (hd : Bool),
      Algorithm.schedule_function DataFrequency.daily dr tro hd none =
        Except.ok ⟨dr.getD DateRule.every_day, TimeRule.every_minute,
          TradingCal.configured, hd⟩) ∧
    (∀ (dr : Option DateRule) (hd : Bool),
      Algorithm.schedule_function DataFrequency.minute dr none hd none =
        Except.ok ⟨dr.getD DateRule.every_day, TimeRule.every_minute,
          TradingCal.configured, hd⟩) ∧
    (∀ session : List Bar,
      countFirings TimeRule.every_minute session = session.length) ∧
    (∀ b : Bar, countFirings TimeRule.every_minute [b] = 1) := by
  refine ⟨fun dr tro hd => rfl, fun dr hd => rfl, ?_, fun b => rfl⟩
  intro session
  unfold countFirings
  induction session with
  | nil => rfl
  | cons b bs ih => simp [List.filter, TimeRule.matches, ih]

/-- C9: evaluation of the backend resolution in the constructor.  A first-party
name resolves; a name importable only from the global namespace hits the
unbound `options` reference in
`importlib.import_module(backend).Backend(**options)` and fails with a
NameError instead of constructing the Algorithm; an unknown name fails
with a RuntimeError naming the backend. -/
theorem C9_backend_resolution_eval :
    Algorithm.resolve_backend sampleImports "alpaca" =
      Except.ok "pylivetrader.backend.alpaca" ∧
    Algorithm.resolve_backend sampleImports "mybackend" =
      Except.error (TraderError.NameError "options") ∧
    Algorithm.resolve_backend sampleImports "nosuchbackend" =
      Except.error (TraderError.RuntimeError
        "Could not find backend package `nosuchbackend`.") :=
  ⟨rfl, rfl, rfl⟩

/-- C10: an asset with no `auto_close_date` passes `_can_order_asset`
regardless of its `end_date` and of the current simulated date, so a plain
`order` call forwards a placement to the backend. -/
theorem C10_no_auto_close_always_orderable (env : Env) (asset : Asset)
    (amount : ℚ) (h : asset.auto_close_date = none) :
    Algorithm._can_order_asset env asset = Except.ok true ∧
    (Algorithm.order env asset amount none none none).backendCalls =
      [(asset, Algorithm.round_order amount, ExecutionStyle.MarketOrder)] := by
  have h1 : Algorithm._can_order_asset env asset = Except.ok true := by
    unfold Algorithm._can_order_asset
    simp only [h]
  exact ⟨h1, order_market_backendCalls env asset amount h1⟩

/-- C10 witness: the theorem applied to `staleAsset`, whose `end_date`
(day 100) is far before the sample current date (day 18000) but which has
no `auto_close_date`. -/
theorem C10_no_auto_close_always_orderable_witness :
    staleAsset.auto_close_date = none ∧
    staleAsset.end_date < sampleEnv.datetime ∧
    Algorithm._can_order_asset sampleEnv staleAsset = Except.ok true ∧
    (Algorithm.order sampleEnv staleAsset 7 none none none).backendCalls =
      [(staleAsset, Algorithm.round_order 7, ExecutionStyle.MarketOrder)] :=
  ⟨rfl, by decide,
   (C10_no_auto_close_always_orderable sampleEnv staleAsset 7 rfl).1,
   (C10_no_auto_close_always_orderable sampleEnv staleAsset 7 rfl).2⟩
